import Mathlib

/-!
Shallow embedding of `src/component/select.tsx` (Ep1cType/select): the
`Select` and `MultiSelect` dropdown widgets.

Modelling conventions:
* The component's local React state (`internalOpen`, `inputValue`) is the
  record `WState`; each event handler becomes a function
  `Props → WState → ... → WState × List Event` returning the post-render
  state together with the callback invocations (`onValueChange`,
  `onCreateOption`, `onOpenChange`) in call order.
* The controlled `value` prop is passed explicitly to the handlers that
  close over it, mirroring the TSX closures.
* `maxLength?: number` is `Option Nat`; the TS truthiness test
  `maxLength && ...` makes `some 0` behave like `none` (`lengthGuard`).
* JS `String.prototype.toLowerCase` / `trim` are modelled by `jsToLower`
  / `jsTrim` (they agree on the ASCII range), and
  `String.prototype.includes` by `strIncludes` below.
* A `SelectItem` child is an `Opt`: its `value` prop plus `textLabel`,
  which is `some l` when its `children` is the plain string `l` (TS
  `typeof child.props.children === 'string'`) and `none` otherwise.
* The `SelectContent` child of a widget may be absent, hence
  `content : Option (List Opt)` (the TSX searches children for it and
  does nothing when it is missing).
-/

/-- Chars `needle` is a prefix of `hay` (used to build substring search). -/
def charsPrefix : List Char → List Char → Bool
  | [], _ => true
  | _ :: _, [] => false
  | a :: as, b :: bs => a == b && charsPrefix as bs

/-- Chars `needle` occurs contiguously inside `hay`. -/
def charsIncludes : List Char → List Char → Bool
  | hay, needle =>
    match hay with
    | [] => needle.isEmpty
    | _ :: rest => charsPrefix needle hay || charsIncludes rest needle

/-- JS `hay.includes(needle)`: substring containment. -/
def strIncludes (hay needle : String) : Bool :=
  charsIncludes hay.toList needle.toList

/-- JS `s.toLowerCase()` (faithful on the ASCII range the widget's
comparisons use). -/
def jsToLower (s : String) : String :=
  String.mk (s.toList.map Char.toLower)

/-- JS `s.trim()`: strip leading and trailing whitespace. -/
def jsTrim (s : String) : String :=
  String.mk (((s.toList.dropWhile Char.isWhitespace).reverse.dropWhile
    Char.isWhitespace).reverse)

/-- The TS guard `maxLength && t.length > maxLength`: truthiness means an
absent or zero `maxLength` never rejects. -/
def lengthGuard (maxLength : Option Nat) (t : String) : Bool :=
  match maxLength with
  | none => false
  | some m => (m != 0) && decide (t.length > m)

/-- One `SelectItem` child: its `value` prop, and its label when the label
is plain text (`none` models non-string children). -/
structure Opt where
  value : String
  textLabel : Option String
deriving DecidableEq, Repr

/-- The label string used for filtering:
`typeof children === 'string' ? children : value`. -/
def labelOf (o : Opt) : String :=
  o.textLabel.getD o.value

/-- Configuration props shared by `Select` and `MultiSelect`. -/
structure Props where
  disabled : Bool
  creatable : Bool
  maxLength : Option Nat
  content : Option (List Opt)
deriving Repr

/-- Local interaction state of either widget:
`useState internalOpen` and `useState inputValue`. -/
structure WState where
  internalOpen : Bool
  inputValue : String
deriving DecidableEq, Repr

/-- A callback invocation observable by the caller. -/
inductive Event where
  | valueChange : String → Event
  | valueChangeList : List String → Event
  | createOption : String → Event
  | openChange : Bool → Event
deriving DecidableEq, Repr

/-- `opts.some(label.toLowerCase().includes(filter.toLowerCase()))`:
the match test of `handleKeyDown` in both widgets. -/
def hasMatchingOption (opts : List Opt) (filter : String) : Bool :=
  opts.any (fun o => strIncludes (jsToLower (labelOf o)) (jsToLower filter))

namespace Sel

/-- `Select.handleOpenChange`: rejected outright when `disabled`;
otherwise sets the open flag, reports it, and clears the filter text on
close. -/
def handleOpenChange (p : Props) (s : WState) (openArg : Bool) :
    WState × List Event :=
  if p.disabled then (s, [])
  else
    ({ internalOpen := openArg,
       inputValue := if openArg then s.inputValue else "" },
     [Event.openChange openArg])

/-- `Select.handleValueChange`: length-guarded commit, then close, then
clear the input. -/
def handleValueChange (p : Props) (s : WState) (newValue : String) :
    WState × List Event :=
  if lengthGuard p.maxLength newValue then (s, [])
  else
    let r := handleOpenChange p s false
    ({ r.1 with inputValue := "" }, Event.valueChange newValue :: r.2)

/-- `Select.handleInputChange`: length-guarded edit of the filter text,
opening the dropdown when it was closed. -/
def handleInputChange (p : Props) (s : WState) (newInputValue : String) :
    WState × List Event :=
  if lengthGuard p.maxLength newInputValue then (s, [])
  else
    let s1 : WState := { s with inputValue := newInputValue }
    if s.internalOpen then (s1, []) else handleOpenChange p s1 true

/-- `Select.handleCreateValue`: trims the input; empty or over-long text
is a no-op, otherwise fires `onCreateOption` and commits the trimmed
text. -/
def handleCreateValue (p : Props) (s : WState) : WState × List Event :=
  let trimmedValue := jsTrim s.inputValue
  if trimmedValue != "" then
    if lengthGuard p.maxLength trimmedValue then (s, [])
    else
      let r := handleValueChange p s trimmedValue
      (r.1, Event.createOption trimmedValue :: r.2)
  else (s, [])

/-- `Select.handleKeyDown`: on Enter in creatable mode with non-blank
input and a `SelectContent` child, creates when no option's label matches
the input case-insensitively. -/
def handleKeyDown (p : Props) (s : WState) (key : String) :
    WState × List Event :=
  if !p.creatable || jsTrim s.inputValue == "" then (s, [])
  else if key == "Enter" then
    match p.content with
    | some opts =>
      if hasMatchingOption opts s.inputValue then (s, [])
      else handleCreateValue p s
    | none => (s, [])
  else (s, [])

/-- `SelectItem.handleClick` in single-select mode: the injected
`onValueChange` is the container's `handleValueChange`. -/
def itemClick (p : Props) (s : WState) (v : String) : WState × List Event :=
  handleValueChange p s v

/-- The `filterValue` prop injected into `SelectContent`:
`creatable ? inputValue : undefined`. -/
def filterValue (p : Props) (s : WState) : Option String :=
  if p.creatable then some s.inputValue else none

/-- `SelectContent.filteredChildren`: filters only when `filterValue` is
truthy (present and non-empty). -/
def filteredChildren (fv : Option String) (opts : List Opt) : List Opt :=
  match fv with
  | none => opts
  | some f =>
    if f == "" then opts
    else opts.filter (fun o => strIncludes (jsToLower (labelOf o)) (jsToLower f))

/-- The items `Select` actually renders in its open dropdown. -/
def visibleItems (p : Props) (s : WState) (opts : List Opt) : List Opt :=
  filteredChildren (filterValue p s) opts

/-- The document-level `mousedown` listener: attached only while open,
and then an outside target runs `handleOpenChange(false)`. -/
def outsideClick (p : Props) (s : WState) : WState × List Event :=
  if s.internalOpen then handleOpenChange p s false else (s, [])

/-- A user event deliverable to a rendered `Select`. -/
inductive SEvent where
  | triggerClick
  | inputEdit : String → SEvent
  | keyDown : String → SEvent
  | itemClick : String → SEvent
  | createRowClick
  | outsideMouseDown
deriving DecidableEq, Repr

/-- Event dispatch for `Select`, with the DOM-level guards under which
each handler is reachable: the text input exists only in creatable mode
and is inert when `disabled`; the non-creatable trigger button has the
`disabled` attribute; items and the create row render only while open. -/
def step (p : Props) (s : WState) : SEvent → WState × List Event
  | SEvent.triggerClick =>
    if p.creatable then handleOpenChange p s (!s.internalOpen)
    else if p.disabled then (s, [])
    else handleOpenChange p s (!s.internalOpen)
  | SEvent.inputEdit t =>
    if p.creatable && !p.disabled then handleInputChange p s t else (s, [])
  | SEvent.keyDown k =>
    if p.creatable && !p.disabled then handleKeyDown p s k else (s, [])
  | SEvent.itemClick v =>
    if s.internalOpen &&
        (match p.content with
         | some opts => (visibleItems p s opts).any (fun o => o.value == v)
         | none => false) then
      handleValueChange p s v
    else (s, [])
  | SEvent.createRowClick =>
    if s.internalOpen && p.creatable && s.inputValue != "" &&
        (match p.content with
         | some opts => (visibleItems p s opts).isEmpty
         | none => false) then
      handleCreateValue p s
    else (s, [])
  | SEvent.outsideMouseDown => outsideClick p s

end Sel

namespace Multi

/-- `MultiSelect.handleOpenChange`: identical to the single-select one. -/
def handleOpenChange (p : Props) (s : WState) (openArg : Bool) :
    WState × List Event :=
  if p.disabled then (s, [])
  else
    ({ internalOpen := openArg,
       inputValue := if openArg then s.inputValue else "" },
     [Event.openChange openArg])

/-- The array computed by `MultiSelect.handleToggleValue`: remove every
occurrence of a present value, append an absent one. -/
def toggleList (value : List String) (x : String) : List String :=
  if value.contains x then value.filter (fun v => v != x)
  else value ++ [x]

/-- `MultiSelect.handleToggleValue`: reports the toggled array and clears
the filter text; the open flag is untouched. -/
def handleToggleValue (value : List String) (s : WState) (x : String) :
    WState × List Event :=
  ({ s with inputValue := "" }, [Event.valueChangeList (toggleList value x)])

/-- `MultiSelect.handleRemoveValue` (chip ✕ icon): reports the array with
every occurrence of the value removed; local state is untouched. -/
def handleRemoveValue (value : List String) (s : WState) (x : String) :
    WState × List Event :=
  (s, [Event.valueChangeList (value.filter (fun v => v != x))])

/-- `MultiSelect.handleClearAll`: reports the empty array. -/
def handleClearAll (s : WState) : WState × List Event :=
  (s, [Event.valueChangeList []])

/-- `MultiSelect.handleCreateValue`: trims the input; blank or duplicate
text is skipped outright, over-long text is rejected by the length guard,
otherwise `onCreateOption` fires and the trimmed text is appended; the
open flag is untouched. -/
def handleCreateValue (p : Props) (value : List String) (s : WState) :
    WState × List Event :=
  let trimmedValue := jsTrim s.inputValue
  if trimmedValue != "" && !value.contains trimmedValue then
    if lengthGuard p.maxLength trimmedValue then (s, [])
    else
      ({ s with inputValue := "" },
       [Event.createOption trimmedValue,
        Event.valueChangeList (value ++ [trimmedValue])])
  else (s, [])

/-- `MultiSelect.handleInputChange`: length-guarded edit of the filter
text (no auto-open, unlike `Select`). -/
def handleInputChange (p : Props) (s : WState) (newValue : String) :
    WState × List Event :=
  if lengthGuard p.maxLength newValue then (s, [])
  else ({ s with inputValue := newValue }, [])

/-- `MultiSelect.handleKeyDown`: same Enter-to-create logic as `Select`,
delegating to the multi-select `handleCreateValue`. -/
def handleKeyDown (p : Props) (value : List String) (s : WState)
    (key : String) : WState × List Event :=
  if !p.creatable || jsTrim s.inputValue == "" then (s, [])
  else if key == "Enter" then
    match p.content with
    | some opts =>
      if hasMatchingOption opts s.inputValue then (s, [])
      else handleCreateValue p value s
    | none => (s, [])
  else (s, [])

/-- `MultiSelect.handleContainerClick`: opens when closed. -/
def handleContainerClick (p : Props) (s : WState) : WState × List Event :=
  if !s.internalOpen then handleOpenChange p s true else (s, [])

/-- The creatable input's `onFocus`: opens when closed. -/
def inputFocus (p : Props) (s : WState) : WState × List Event :=
  if !s.internalOpen then handleOpenChange p s true else (s, [])

/-- The document-level `mousedown` listener, attached only while open. -/
def outsideClick (p : Props) (s : WState) : WState × List Event :=
  if s.internalOpen then handleOpenChange p s false else (s, [])

/-- `MultiSelect.filteredChildren`: filters whenever `inputValue` is
truthy (non-empty), with no `creatable` test in the expression itself. -/
def filteredChildren (s : WState) (opts : List Opt) : List Opt :=
  if s.inputValue == "" then opts
  else opts.filter (fun o => strIncludes (jsToLower (labelOf o)) (jsToLower s.inputValue))

/-- A user event deliverable to a rendered `MultiSelect`. -/
inductive MEvent where
  | containerClick
  | outsideMouseDown
  | toggleItem : String → MEvent
  | removeChip : String → MEvent
  | clearAllClick
  | inputEdit : String → MEvent
  | inputFocusEv
  | keyDown : String → MEvent
  | createRowClick
deriving DecidableEq, Repr

/-- Event dispatch for `MultiSelect`, with the DOM-level guards under
which each handler is reachable: the text input (hence edits, focus, key
events) is rendered only in creatable mode and is inert when `disabled`;
items render only while open and when they pass the filter; the create
row renders only while open, in creatable mode, with non-blank
non-duplicate input and no filtered results; chip removal and clear-all
need the value to be present. -/
def step (p : Props) (value : List String) (s : WState) :
    MEvent → WState × List Event
  | MEvent.containerClick => handleContainerClick p s
  | MEvent.outsideMouseDown => outsideClick p s
  | MEvent.toggleItem v =>
    if s.internalOpen &&
        (match p.content with
         | some opts => (filteredChildren s opts).any (fun o => o.value == v)
         | none => false) then
      handleToggleValue value s v
    else (s, [])
  | MEvent.removeChip v =>
    if value.contains v then handleRemoveValue value s v else (s, [])
  | MEvent.clearAllClick =>
    if !value.isEmpty then handleClearAll s else (s, [])
  | MEvent.inputEdit t =>
    if p.creatable && !p.disabled then handleInputChange p s t else (s, [])
  | MEvent.inputFocusEv =>
    if p.creatable && !p.disabled then inputFocus p s else (s, [])
  | MEvent.keyDown k =>
    if p.creatable && !p.disabled then handleKeyDown p value s k else (s, [])
  | MEvent.createRowClick =>
    if s.internalOpen && p.creatable && jsTrim s.inputValue != "" &&
        !value.contains (jsTrim s.inputValue) &&
        (match p.content with
         | some opts => (filteredChildren s opts).isEmpty
         | none => false) then
      handleCreateValue p value s
    else (s, [])

/-- Run a sequence of events; the controlled `value` prop at each step is
supplied by the (arbitrary) caller alongside the event. -/
def run (p : Props) (s : WState) : List (List String × MEvent) → WState
  | [] => s
  | (v, e) :: rest => run p (step p v s e).1 rest

end Multi

/-- The option list of the spec's running example: items labelled
"React" and "Vue". -/
def demoOpts : List Opt :=
  [⟨"react", some "React"⟩, ⟨"vue", some "Vue"⟩]

-- Helper lemmas ------------------------------------------------------------

lemma lengthGuard_eq_true {maxLength : Option Nat} {m : Nat} {t : String}
    (hm : maxLength = some m) (hpos : 0 < m) (hl : m < t.length) :
    lengthGuard maxLength t = true := by
  subst hm
  simp [lengthGuard, hl]
  omega

lemma filter_bne_eq_self {l : List String} {x : String} (h : x ∉ l) :
    l.filter (fun v => v != x) = l := by
  apply List.filter_eq_self.mpr
  intro a ha
  simp only [bne_iff_ne, ne_eq, decide_eq_true_eq]
  rintro rfl
  exact h ha

lemma not_mem_filter_bne (l : List String) (x : String) :
    x ∉ l.filter (fun v => v != x) := by
  intro h
  have := (List.mem_filter.mp h).2
  simp at this

lemma multi_step_inputValue_empty (p : Props) (hp : p.creatable = false)
    (value : List String) (s : WState) (hs : s.inputValue = "")
    (e : Multi.MEvent) : ((Multi.step p value s e).1).inputValue = "" := by
  cases e <;>
    simp only [Multi.step, Multi.handleContainerClick, Multi.outsideClick,
      Multi.handleToggleValue, Multi.handleRemoveValue, Multi.handleClearAll,
      Multi.handleInputChange, Multi.inputFocus, Multi.handleKeyDown,
      Multi.handleCreateValue, Multi.handleOpenChange, hp, hs] <;>
    split_ifs <;> simp_all

lemma multi_run_inputValue_empty (p : Props) (hp : p.creatable = false)
    (evs : List (List String × Multi.MEvent)) :
    ∀ s : WState, s.inputValue = "" → (Multi.run p s evs).inputValue = "" := by
  induction evs with
  | nil => intro s hs; exact hs
  | cons he rest ih =>
    intro s hs
    obtain ⟨v, e⟩ := he
    simp only [Multi.run]
    exact ih _ (multi_step_inputValue_empty p hp v s hs e)

-- Claim theorems -----------------------------------------------------------

/-- C1: with a positive `maxLength` set, every input edit or value commit
whose text is longer than `maxLength`, and every creation whose trimmed
text is longer than `maxLength`, is a silent no-op in both `Select` and
`MultiSelect`: the local state is unchanged and no callback
(`onValueChange`, `onCreateOption`, `onOpenChange`) fires. -/
theorem c1_maxLength_rejects (p : Props) (s : WState) (m : Nat)
    (hm : p.maxLength = some m) (hpos : 0 < m) :
    (∀ t : String, m < t.length →
      Sel.handleInputChange p s t = (s, []) ∧
      Sel.handleValueChange p s t = (s, []) ∧
      Multi.handleInputChange p s t = (s, [])) ∧
    (m < (jsTrim s.inputValue).length →
      Sel.handleCreateValue p s = (s, []) ∧
      ∀ value : List String, Multi.handleCreateValue p value s = (s, [])) := by
  constructor
  · intro t ht
    have hg := lengthGuard_eq_true hm hpos ht
    refine ⟨?_, ?_, ?_⟩ <;>
      simp [Sel.handleInputChange, Sel.handleValueChange,
        Multi.handleInputChange, hg]
  · intro ht
    have hg := lengthGuard_eq_true hm hpos ht
    constructor
    · simp only [Sel.handleCreateValue, hg]
      split <;> rfl
    · intro value
      simp only [Multi.handleCreateValue, hg]
      split <;> rfl

/-- C1 witness: `maxLength = 3`, text "abcd" (length 4): the edit and the
creation are both rejected with no state change and no events. -/
theorem c1_witness :
    Sel.handleInputChange ⟨false, true, some 3, some demoOpts⟩
        ⟨true, "abcdef"⟩ "abcd" = (⟨true, "abcdef"⟩, []) ∧
    Multi.handleCreateValue ⟨false, true, some 3, some demoOpts⟩ []
        ⟨true, "abcdef"⟩ = (⟨true, "abcdef"⟩, []) := by
  have h := c1_maxLength_rejects ⟨false, true, some 3, some demoOpts⟩
    ⟨true, "abcdef"⟩ 3 rfl (by decide)
  exact ⟨(h.1 "abcd" (by decide)).1, (h.2 (by decide)).2 []⟩

/-- C2 counterexample: the claim's double-toggle identity fails for an
externally supplied array in which the toggled value is present but not
in the last position: toggling "x" twice on ["x", "a"] yields
["a", "x"], not ["x", "a"] (removal drops the value wherever it sits,
re-adding appends it at the end). -/
theorem c2_counterexample :
    Multi.toggleList (Multi.toggleList ["x", "a"] "x") "x" ≠ ["x", "a"] := by
  decide

/-- C2 (amended): `handleToggleValue` reports the toggled array with the
filter text cleared; toggling a value absent from the array twice
(add then remove) is a no-op, but toggling a present value twice yields
the array with every occurrence of the value removed and a single copy
appended — equal to the original only when the value occurred exactly
once, in the last position. -/
theorem c2_toggle_twice (v : List String) (x : String) :
    (∀ s : WState, Multi.handleToggleValue v s x =
      ({ s with inputValue := "" },
       [Event.valueChangeList (Multi.toggleList v x)])) ∧
    (v.contains x = false →
      Multi.toggleList (Multi.toggleList v x) x = v) ∧
    (v.contains x = true →
      Multi.toggleList (Multi.toggleList v x) x =
        v.filter (fun a => a != x) ++ [x]) := by
  refine ⟨fun s => rfl, ?_, ?_⟩
  · intro hc
    have hx : x ∉ v := by simpa using hc
    have h1 : Multi.toggleList v x = v ++ [x] := by
      unfold Multi.toggleList
      rw [hc]
      simp
    rw [h1]
    have hc2 : (v ++ [x]).contains x = true := by simp
    unfold Multi.toggleList
    rw [hc2]
    simp only [if_true]
    rw [List.filter_append, filter_bne_eq_self hx]
    simp
  · intro hc
    have h1 : Multi.toggleList v x = v.filter (fun a => a != x) := by
      unfold Multi.toggleList
      rw [hc]
      simp
    rw [h1]
    have hc2 : (v.filter (fun a => a != x)).contains x = false := by
      simp [not_mem_filter_bne v x]
    unfold Multi.toggleList
    rw [hc2]
    simp

/-- C2 witness for the amended statement: toggling "x" twice on
["a", "b"] (absent case) restores the array, and on ["x", "a"]
(present case) yields ["a", "x"]. -/
theorem c2_witness :
    Multi.toggleList (Multi.toggleList ["a", "b"] "x") "x" = ["a", "b"] ∧
    Multi.toggleList (Multi.toggleList ["x", "a"] "x") "x" =
      (["x", "a"].filter (fun a => a != "x")) ++ ["x"] := by
  exact ⟨(c2_toggle_twice ["a", "b"] "x").2.1 (by decide),
         (c2_toggle_twice ["x", "a"] "x").2.2 (by decide)⟩

/-- C8: creating from blank (empty or whitespace-only) input is a
complete no-op in both widgets, and creating a value already present in
the multi-select array is likewise a no-op: no events, state unchanged. -/
theorem c8_blank_or_duplicate_creation (p : Props) (s : WState) :
    (jsTrim s.inputValue = "" →
      Sel.handleCreateValue p s = (s, []) ∧
      ∀ value : List String, Multi.handleCreateValue p value s = (s, [])) ∧
    (∀ value : List String, value.contains (jsTrim s.inputValue) = true →
      Multi.handleCreateValue p value s = (s, [])) := by
  constructor
  · intro h
    constructor
    · simp only [Sel.handleCreateValue, h]
      simp
    · intro value
      simp only [Multi.handleCreateValue, h]
      simp
  · intro value hc
    simp only [Multi.handleCreateValue, hc]
    simp

/-- C8 witness: whitespace-only input "  " creates nothing in either
widget, and input "a" with "a" already selected creates nothing in
`MultiSelect`. -/
theorem c8_witness :
    Sel.handleCreateValue ⟨false, true, none, some demoOpts⟩ ⟨true, "  "⟩ =
      (⟨true, "  "⟩, []) ∧
    Multi.handleCreateValue ⟨false, true, none, some demoOpts⟩ ["a"]
      ⟨true, "a"⟩ = (⟨true, "a"⟩, []) := by
  refine ⟨((c8_blank_or_duplicate_creation ⟨false, true, none, some demoOpts⟩
      ⟨true, "  "⟩).1 (by decide)).1, ?_⟩
  exact (c8_blank_or_duplicate_creation ⟨false, true, none, some demoOpts⟩
      ⟨true, "a"⟩).2 ["a"] (by decide)

/-- C9: `maxLength = 0` disables the length guard entirely — every user
event produces exactly the same state and callbacks as with `maxLength`
unset, for both widgets. -/
theorem c9_zero_maxLength_is_unset (d c : Bool) (cont : Option (List Opt))
    (s : WState) :
    (∀ e : Sel.SEvent,
      Sel.step ⟨d, c, some 0, cont⟩ s e = Sel.step ⟨d, c, none, cont⟩ s e) ∧
    (∀ (value : List String) (e : Multi.MEvent),
      Multi.step ⟨d, c, some 0, cont⟩ value s e =
        Multi.step ⟨d, c, none, cont⟩ value s e) := by
  constructor
  · intro e
    cases e <;> rfl
  · intro value e
    cases e <;> rfl

/-- C3 counterexample: with `maxLength = 1` the claim's trigger
conditions hold (creatable, filter text "zz" non-empty, zero matching
options) yet Enter is a complete no-op — `onCreateOption` is never
called, because the creation is first rejected by the length guard. -/
theorem c3_counterexample :
    jsTrim "zz" ≠ "" ∧
    hasMatchingOption demoOpts "zz" = false ∧
    Sel.handleKeyDown ⟨false, true, some 1, some demoOpts⟩ ⟨true, "zz"⟩
      "Enter" = (⟨true, "zz"⟩, []) := by
  decide

/-- C3 (amended): in creatable single-select mode, Enter with non-blank
filter text matching zero options — provided the trimmed text passes the
length guard and the widget is enabled — calls `onCreateOption` once with
the trimmed text, then `onValueChange` with the same text, then closes
(`onOpenChange false`), ending with the dropdown closed and the filter
cleared. -/
theorem c3_enter_creates_single (p : Props) (s : WState) (opts : List Opt)
    (hcre : p.creatable = true) (hcont : p.content = some opts)
    (hne : (jsTrim s.inputValue == "") = false)
    (hnm : hasMatchingOption opts s.inputValue = false)
    (hlen : lengthGuard p.maxLength (jsTrim s.inputValue) = false)
    (hdis : p.disabled = false) :
    Sel.handleKeyDown p s "Enter" =
      (⟨false, ""⟩,
       [Event.createOption (jsTrim s.inputValue),
        Event.valueChange (jsTrim s.inputValue),
        Event.openChange false]) := by
  have hne' : jsTrim s.inputValue ≠ "" := by simpa using hne
  simp only [Sel.handleKeyDown, hcre, hcont, hne, hnm, Bool.not_true,
    Bool.false_or]
  simp only [Sel.handleCreateValue, hne, hlen, Sel.handleValueChange,
    Sel.handleOpenChange, hdis]
  simp [hne']

/-- C3 witness: enabled creatable `Select` over the React/Vue options,
filter text "zz", Enter: create and commit "zz", closing the dropdown. -/
theorem c3_witness :
    Sel.handleKeyDown ⟨false, true, some 10, some demoOpts⟩ ⟨true, "zz"⟩
      "Enter" =
      (⟨false, ""⟩,
       [Event.createOption (jsTrim "zz"), Event.valueChange (jsTrim "zz"),
        Event.openChange false]) :=
  c3_enter_creates_single ⟨false, true, some 10, some demoOpts⟩ ⟨true, "zz"⟩
    demoOpts rfl rfl (by decide) (by decide) (by decide) rfl

/-- C4 counterexample: with `maxLength = 1` the claim's trigger
conditions hold in `MultiSelect` (creatable, filter text "zz" non-empty,
zero matching options, "zz" not already selected) yet Enter is a
complete no-op — nothing is appended and `onCreateOption` never fires. -/
theorem c4_counterexample :
    jsTrim "zz" ≠ "" ∧
    hasMatchingOption demoOpts "zz" = false ∧
    ["a"].contains (jsTrim "zz") = false ∧
    Multi.handleKeyDown ⟨false, true, some 1, some demoOpts⟩ ["a"]
      ⟨true, "zz"⟩ "Enter" = (⟨true, "zz"⟩, []) := by
  decide

/-- C4 (amended): in creatable multi-select mode, under the creation
trigger conditions (non-blank filter text matching zero options) and
provided the trimmed text passes the length guard: if the trimmed text
is not already selected, both the Enter path and the create-row path
call `onCreateOption` once and report the array with the trimmed text
appended, clearing the filter but leaving the open flag exactly as it
was (so an open dropdown stays open); if the trimmed text is already in
the array the creation is skipped entirely. -/
theorem c4_multi_create (p : Props) (value : List String) (s : WState)
    (opts : List Opt)
    (hcre : p.creatable = true) (hcont : p.content = some opts)
    (hne : (jsTrim s.inputValue == "") = false)
    (hnm : hasMatchingOption opts s.inputValue = false)
    (hlen : lengthGuard p.maxLength (jsTrim s.inputValue) = false) :
    (value.contains (jsTrim s.inputValue) = false →
      Multi.handleKeyDown p value s "Enter" =
        (⟨s.internalOpen, ""⟩,
         [Event.createOption (jsTrim s.inputValue),
          Event.valueChangeList (value ++ [jsTrim s.inputValue])]) ∧
      Multi.handleCreateValue p value s =
        (⟨s.internalOpen, ""⟩,
         [Event.createOption (jsTrim s.inputValue),
          Event.valueChangeList (value ++ [jsTrim s.inputValue])])) ∧
    (value.contains (jsTrim s.inputValue) = true →
      Multi.handleCreateValue p value s = (s, [])) := by
  have hne' : jsTrim s.inputValue ≠ "" := by simpa using hne
  constructor
  · intro hdup
    have hcv : Multi.handleCreateValue p value s =
        (⟨s.internalOpen, ""⟩,
         [Event.createOption (jsTrim s.inputValue),
          Event.valueChangeList (value ++ [jsTrim s.inputValue])]) := by
      simp only [Multi.handleCreateValue, hne, hdup, hlen]
      simp [hne']
    refine ⟨?_, hcv⟩
    simp only [Multi.handleKeyDown, hcre, hcont, hne, hnm, Bool.not_true,
      Bool.false_or]
    simp [hcv]
  · intro hdup
    simp only [Multi.handleCreateValue, hdup]
    simp

/-- C4 witness: enabled creatable `MultiSelect` with value ["a"], filter
text "zz", Enter: "zz" is created and appended, the dropdown stays open;
with value ["zz"] the same creation is skipped. -/
theorem c4_witness :
    Multi.handleKeyDown ⟨false, true, none, some demoOpts⟩ ["a"]
      ⟨true, "zz"⟩ "Enter" =
      (⟨true, ""⟩,
       [Event.createOption (jsTrim "zz"),
        Event.valueChangeList (["a"] ++ [jsTrim "zz"])]) ∧
    Multi.handleCreateValue ⟨false, true, none, some demoOpts⟩ ["zz"]
      ⟨true, "zz"⟩ = (⟨true, "zz"⟩, []) := by
  refine ⟨((c4_multi_create ⟨false, true, none, some demoOpts⟩ ["a"]
      ⟨true, "zz"⟩ demoOpts rfl rfl (by decide) (by decide) (by decide)).1
      (by decide)).1, ?_⟩
  exact (c4_multi_create ⟨false, true, none, some demoOpts⟩ ["zz"]
      ⟨true, "zz"⟩ demoOpts rfl rfl (by decide) (by decide) (by decide)).2
      (by decide)

/-- C5 counterexample: with `maxLength = 1`, clicking the "react" item
(an existing item of the option list) is a complete no-op — the commit
is rejected by the length guard, so `onValueChange` is not called and
the dropdown stays open — contradicting the claim's unconditional
commit-and-close. -/
theorem c5_counterexample :
    demoOpts.any (fun o => o.value == "react") = true ∧
    Sel.itemClick ⟨false, false, some 1, some demoOpts⟩ ⟨true, ""⟩ "react" =
      (⟨true, ""⟩, []) := by
  decide

/-- C5 (amended): clicking an item in single-select mode — provided the
item's value passes the length guard and the widget is not disabled —
calls `onValueChange` with exactly that item's value, then closes the
dropdown (`onOpenChange false`), ending with the open flag false and the
filter text cleared. -/
theorem c5_item_click (p : Props) (s : WState) (v : String)
    (hlen : lengthGuard p.maxLength v = false)
    (hdis : p.disabled = false) :
    Sel.itemClick p s v =
      (⟨false, ""⟩, [Event.valueChange v, Event.openChange false]) := by
  simp only [Sel.itemClick, Sel.handleValueChange, hlen,
    Sel.handleOpenChange, hdis]
  simp

/-- C5 witness: clicking "react" on an enabled widget with no length
limit commits "react" and closes. -/
theorem c5_witness :
    Sel.itemClick ⟨false, false, none, some demoOpts⟩ ⟨true, ""⟩ "react" =
      (⟨false, ""⟩, [Event.valueChange "react", Event.openChange false]) :=
  c5_item_click ⟨false, false, none, some demoOpts⟩ ⟨true, ""⟩ "react"
    rfl rfl

/-- C6: filtering is case-insensitive substring matching on the
plain-text label (value when the label is not plain text). In `Select`,
with a creatable widget and non-empty filter text an option is visible
iff its lowercased label contains the lowercased filter text, and with
empty filter text or a non-creatable widget nothing is removed. In
`MultiSelect` the same iff holds for non-empty filter text, nothing is
removed for empty filter text, and in a non-creatable widget every
reachable state (no text input is rendered, so the filter buffer stays
empty) removes nothing. Concretely, options labelled "React" and "Vue"
with filter "re" yield exactly the "React" option in both widgets. -/
theorem c6_filtering (p : Props) (s : WState) (opts : List Opt) (o : Opt) :
    (p.creatable = true → s.inputValue ≠ "" →
      (o ∈ Sel.visibleItems p s opts ↔
        o ∈ opts ∧
          strIncludes (jsToLower (labelOf o)) (jsToLower s.inputValue) =
            true)) ∧
    (s.inputValue = "" ∨ p.creatable = false →
      Sel.visibleItems p s opts = opts) ∧
    (s.inputValue ≠ "" →
      (o ∈ Multi.filteredChildren s opts ↔
        o ∈ opts ∧
          strIncludes (jsToLower (labelOf o)) (jsToLower s.inputValue) =
            true)) ∧
    (s.inputValue = "" → Multi.filteredChildren s opts = opts) ∧
    (p.creatable = false →
      ∀ (b : Bool) (evs : List (List String × Multi.MEvent)),
        Multi.filteredChildren (Multi.run p ⟨b, ""⟩ evs) opts = opts) ∧
    (Sel.visibleItems ⟨false, true, none, some demoOpts⟩ ⟨true, "re"⟩
        demoOpts = [⟨"react", some "React"⟩] ∧
      Multi.filteredChildren ⟨true, "re"⟩ demoOpts =
        [⟨"react", some "React"⟩]) := by
  refine ⟨?_, ?_, ?_, ?_, ?_, by decide⟩
  · intro hcre hne
    have hb : (s.inputValue == "") = false := by simpa using hne
    simp only [Sel.visibleItems, Sel.filterValue, hcre, if_true,
      Sel.filteredChildren, hb]
    simp [List.mem_filter]
  · rintro (hv | hc)
    · simp only [Sel.visibleItems, Sel.filterValue, Sel.filteredChildren, hv]
      split <;> simp_all
    · simp [Sel.visibleItems, Sel.filterValue, Sel.filteredChildren, hc]
  · intro hne
    have hb : (s.inputValue == "") = false := by simpa using hne
    simp only [Multi.filteredChildren, hb]
    simp [List.mem_filter]
  · intro hv
    simp [Multi.filteredChildren, hv]
  · intro hp b evs
    have h := multi_run_inputValue_empty p hp evs ⟨b, ""⟩ rfl
    simp [Multi.filteredChildren, h]

/-- C6 witness: the visibility iff at option "react" with filter "re" on
a creatable `Select`; no-removal for the empty filter in `MultiSelect`;
and no-removal after a containerClick run of a non-creatable
`MultiSelect`. -/
theorem c6_witness :
    ((⟨"react", some "React"⟩ : Opt) ∈
        Sel.visibleItems ⟨false, true, none, some demoOpts⟩ ⟨true, "re"⟩
          demoOpts ↔
      (⟨"react", some "React"⟩ : Opt) ∈ demoOpts ∧
        strIncludes (jsToLower (labelOf ⟨"react", some "React"⟩))
          (jsToLower "re") = true) ∧
    Multi.filteredChildren ⟨true, ""⟩ demoOpts = demoOpts ∧
    Multi.filteredChildren
      (Multi.run ⟨false, false, none, some demoOpts⟩ ⟨true, ""⟩
        [([], Multi.MEvent.containerClick)]) demoOpts = demoOpts := by
  have h1 := c6_filtering ⟨false, true, none, some demoOpts⟩ ⟨true, "re"⟩
    demoOpts ⟨"react", some "React"⟩
  have h2 := c6_filtering ⟨false, false, none, some demoOpts⟩ ⟨true, ""⟩
    demoOpts ⟨"react", some "React"⟩
  exact ⟨h1.1 rfl (by decide), h2.2.2.2.1 rfl,
    h2.2.2.2.2.1 rfl true [([], Multi.MEvent.containerClick)]⟩

/-- C7 counterexample: a disabled widget that is open (e.g. rendered with
`defaultOpen`) does not close on an outside pointer-down and keeps its
filter text — the claim's "for every state in which the dropdown is
open" fails for disabled widgets, whose `handleOpenChange` rejects the
close. -/
theorem c7_counterexample :
    Sel.outsideClick ⟨true, true, none, some demoOpts⟩ ⟨true, "x"⟩ =
      (⟨true, "x"⟩, []) := by
  decide

/-- C7 (amended): for a non-disabled open widget, an outside pointer-down
closes the dropdown (reporting `onOpenChange false`) and clears the
filter text; and unconditionally, every user event that takes the open
flag from true to false leaves `inputValue` empty. -/
theorem c7_outside_click_closes (p : Props) (s : WState)
    (hdis : p.disabled = false) (hopen : s.internalOpen = true) :
    Sel.outsideClick p s = (⟨false, ""⟩, [Event.openChange false]) ∧
    ∀ (e : Sel.SEvent) (s' : WState), s'.internalOpen = true →
      (Sel.step p s' e).1.internalOpen = false →
      (Sel.step p s' e).1.inputValue = "" := by
  constructor
  · simp [Sel.outsideClick, hopen, Sel.handleOpenChange, hdis]
  · intro e s' ho hcl
    cases e <;> cases hcont : p.content <;>
      simp only [Sel.step, Sel.outsideClick, Sel.itemClick,
        Sel.handleKeyDown, Sel.handleCreateValue, Sel.handleValueChange,
        Sel.handleInputChange, Sel.handleOpenChange, hcont, hdis, ho]
        at hcl ⊢ <;>
      split_ifs at hcl ⊢ <;> simp_all

/-- C7 witness: an enabled creatable widget, open with filter "x": the
outside click closes and clears; instantiating the transition clause at
a trigger click from the open state also yields an empty filter. -/
theorem c7_witness :
    Sel.outsideClick ⟨false, true, none, some demoOpts⟩ ⟨true, "x"⟩ =
      (⟨false, ""⟩, [Event.openChange false]) ∧
    (Sel.step ⟨false, true, none, some demoOpts⟩ ⟨true, "x"⟩
        Sel.SEvent.triggerClick).1.inputValue = "" := by
  have h := c7_outside_click_closes ⟨false, true, none, some demoOpts⟩
    ⟨true, "x"⟩ rfl rfl
  exact ⟨h.1, h.2 Sel.SEvent.triggerClick ⟨true, "x"⟩ rfl (by decide)⟩

/-- C10 counterexample: the claim's "close triggers never clear
`inputValue`" fails for item selection on a disabled-but-open widget:
`handleValueChange` leaves the open flag alone (the disabled guard
rejects the close) but still fires `onValueChange` and resets the filter
text from "x" to "". -/
theorem c10_counterexample :
    Sel.handleValueChange ⟨true, true, none, some demoOpts⟩ ⟨true, "x"⟩
      "react" = (⟨true, ""⟩, [Event.valueChange "react"]) ∧
    ("" : String) ≠ "x" := by
  decide

/-- C10 (amended): while `disabled` holds, `handleOpenChange` is a
complete no-op in both widgets (no state change, no `onOpenChange`), so
outside clicks do nothing at all and no user event ever changes the open
flag — a dropdown rendered open stays open. (Item selection and creation
commits, however, still run their own effects: they may fire callbacks
and reset `inputValue`; only the open-flag transition is rejected.) -/
theorem c10_disabled_freezes_open (p : Props) (s : WState)
    (hdis : p.disabled = true) :
    (∀ b : Bool, Sel.handleOpenChange p s b = (s, []) ∧
      Multi.handleOpenChange p s b = (s, [])) ∧
    Sel.outsideClick p s = (s, []) ∧
    Multi.outsideClick p s = (s, []) ∧
    (∀ e : Sel.SEvent, (Sel.step p s e).1.internalOpen = s.internalOpen) ∧
    (∀ (value : List String) (e : Multi.MEvent),
      (Multi.step p value s e).1.internalOpen = s.internalOpen) := by
  refine ⟨?_, ?_, ?_, ?_, ?_⟩
  · intro b
    constructor <;> simp [Sel.handleOpenChange, Multi.handleOpenChange, hdis]
  · simp only [Sel.outsideClick, Sel.handleOpenChange, hdis]
    split_ifs <;> rfl
  · simp only [Multi.outsideClick, Multi.handleOpenChange, hdis]
    split_ifs <;> rfl
  · intro e
    cases e <;>
      simp only [Sel.step, Sel.outsideClick, Sel.itemClick,
        Sel.handleKeyDown, Sel.handleCreateValue, Sel.handleValueChange,
        Sel.handleInputChange, Sel.handleOpenChange, hdis] <;>
      split_ifs <;> simp_all
  · intro value e
    cases e <;>
      simp only [Multi.step, Multi.handleContainerClick, Multi.outsideClick,
        Multi.handleToggleValue, Multi.handleRemoveValue,
        Multi.handleClearAll, Multi.handleInputChange, Multi.inputFocus,
        Multi.handleKeyDown, Multi.handleCreateValue, Multi.handleOpenChange,
        hdis] <;>
      split_ifs <;> simp_all

/-- C10 witness: a disabled widget open with filter "x": `handleOpenChange
false` and the outside click are no-ops, and a trigger click leaves the
open flag true. -/
theorem c10_witness :
    Sel.handleOpenChange ⟨true, true, none, some demoOpts⟩ ⟨true, "x"⟩
      false = (⟨true, "x"⟩, []) ∧
    Sel.outsideClick ⟨true, false, none, some demoOpts⟩ ⟨true, ""⟩ =
      (⟨true, ""⟩, []) ∧
    (Sel.step ⟨true, true, none, some demoOpts⟩ ⟨true, "x"⟩
        Sel.SEvent.triggerClick).1.internalOpen = true := by
  have h1 := c10_disabled_freezes_open ⟨true, true, none, some demoOpts⟩
    ⟨true, "x"⟩ rfl
  have h2 := c10_disabled_freezes_open ⟨true, false, none, some demoOpts⟩
    ⟨true, ""⟩ rfl
  exact ⟨(h1.1 false).1, h2.2.1, h1.2.2.2.1 Sel.SEvent.triggerClick⟩
